import Mathlib

/-!
Shallow embedding of the Mainflux `things/mocks` in-memory repositories:
the Thing repository, the Channel repository (with its connection index and
the event bridge towards the Thing side) and the channel cache, together
with theorems about key uniqueness, pagination windows, connection tracking
and batch error handling.

Go maps are modelled as association lists `List (String × α)`; insertion
overwrites in place, deletion removes the entry, lookup returns the first
binding.  Go's `(value, error)` returns become explicit pairs of the new
state and an `Except`/`Option Err` result, since the mock mutates its
receiver in place.  The free-form `Metadata` field of Things and Channels is
omitted: no operation modelled here reads or writes it.  The `uint64`
counter is modelled as `Nat` (no claim depends on wrap-around).
-/

/-- Error taxonomy of `pkg/errors` as used by the mocks:
`ErrConflict`, `ErrNotFound`, `ErrAuthorization`. -/
inductive Err where
  | conflict
  | notFound
  | authorization
deriving DecidableEq, Repr

/-- `things.Thing`: identifier, group identifier, display name, access key.
Defaults are Go zero values. -/
structure Thing where
  id : String := ""
  groupID : String := ""
  name : String := ""
  key : String := ""
deriving DecidableEq, Repr

/-- `things.Channel`: identifier, group identifier, display name. -/
structure Channel where
  id : String := ""
  groupID : String := ""
  name : String := ""
deriving DecidableEq, Repr

/-- `mocks.Connection`: a channel/thing connection event carried on the
bridge channel between the two repositories. -/
structure Connection where
  chanID : String := ""
  thing : Thing := {}
  connected : Bool := false
deriving DecidableEq, Repr

/-- `things.PageMetadata` (the fields the mocks read and write:
`Total`, `Offset`, `Limit`, `Name`, and the sort specification used by
`sortThings`/`sortChannels`).  Defaults are Go zero values. -/
structure PageMetadata where
  total : Nat := 0
  offset : Nat := 0
  limit : Nat := 0
  name : String := ""
  order : String := ""
  dir : String := ""
deriving DecidableEq, Repr

/-- `things.ThingsPage`. -/
structure ThingsPage where
  pageMetadata : PageMetadata := {}
  things : List Thing := []
deriving DecidableEq, Repr

/-- `things.ChannelsPage`. -/
structure ChannelsPage where
  pageMetadata : PageMetadata := {}
  channels : List Channel := []
deriving DecidableEq, Repr

/-- Lookup in a Go map modelled as an association list: the first binding
of the key, if any. -/
def mapLookup {α : Type} : List (String × α) → String → Option α
  | [], _ => none
  | (k, v) :: rest, key => if k = key then some v else mapLookup rest key

/-- Go map assignment `m[k] = v`: overwrite the existing binding in place,
or append a fresh one. -/
def mapInsert {α : Type} : List (String × α) → String → α → List (String × α)
  | [], key, v => [(key, v)]
  | (k, w) :: rest, key, v =>
      if k = key then (key, v) :: rest else (k, w) :: mapInsert rest key v

/-- Go `delete(m, k)`: drop the binding of the key. -/
def mapDelete {α : Type} : List (String × α) → String → List (String × α)
  | [], _ => []
  | (k, v) :: rest, key =>
      if k = key then mapDelete rest key else (k, v) :: mapDelete rest key

/-- `fmt.Sprintf "%03d"`: decimal, left-padded with zeros to width 3. -/
def format3 (n : Nat) : String :=
  let s := toString n
  if s.length < 3 then String.mk (List.replicate (3 - s.length) '0') ++ s else s

/-- Modelled from the spec: `uuid.ParseID` is not among the sources; the
spec says identifiers carry an embedded numeric ordinal — their numeric
suffix read as a decimal number (e.g. "007" → 7). -/
def ParseID (s : String) : Nat :=
  ((s.toList.reverse.takeWhile Char.isDigit).reverse).foldl
    (fun n c => n * 10 + (c.toNat - 48)) 0

/-- Modelled from the spec: the comparison used by the sort contract —
records are ordered by `Name`, with `ID` as tie-break. -/
def thingLe (a b : Thing) : Bool :=
  decide (a.name < b.name) || (a.name == b.name && decide (a.id ≤ b.id))

/-- Modelled from the spec: the comparison used by the sort contract for
Channels — `Name`, then `ID` as tie-break. -/
def channelLe (a b : Channel) : Bool :=
  decide (a.name < b.name) || (a.name == b.name && decide (a.id ≤ b.id))

/-- Modelled from the spec: `sortThings` is not among the sources; the sort
contract orders by the field named in the query's sort specification
(ascending by default, descending when reversed), `Name` with `ID`
tie-break, and unsupported sort fields fall back to input order. -/
def sortThings (pm : PageMetadata) (ths : List Thing) : List Thing :=
  if pm.order == "name" then
    let sorted := List.insertionSort (fun a b => thingLe a b = true) ths
    if pm.dir == "desc" then sorted.reverse else sorted
  else ths

/-- Modelled from the spec: `sortChannels`, the Channel twin of
`sortThings`. -/
def sortChannels (pm : PageMetadata) (chs : List Channel) : List Channel :=
  if pm.order == "name" then
    let sorted := List.insertionSort (fun a b => channelLe a b = true) chs
    if pm.dir == "desc" then sorted.reverse else sorted
  else chs

/-- `mocks.thingRepositoryMock`: the sequence counter, the Things table
(`things`, ID → Thing) and the Thing-side connection index (`tconns`,
channel ID → (thing ID → Thing)).  The mutex and the bridge channel are
concurrency artefacts; events consumed from the bridge are applied through
`applyConn` below. -/
structure thingRepositoryMock where
  counter : Nat := 0
  things : List (String × Thing) := []
  tconns : List (String × List (String × Thing)) := []
deriving DecidableEq, Repr

namespace thingRepositoryMock

/-- The loop body of `Save`: for each candidate, fail Conflict if any
stored Thing has the same key (leaving earlier insertions in place),
otherwise bump the counter, assign a generated ID when none is supplied,
and store the record.  `acc` accumulates the (possibly ID-assigned)
candidates returned on success, as Go mutates the argument slice. -/
def SaveLoop (trm : thingRepositoryMock) (acc : List Thing) :
    List Thing → thingRepositoryMock × Except Err (List Thing)
  | [] => (trm, .ok acc.reverse)
  | th :: rest =>
    if trm.things.any (fun p => p.2.key == th.key) then
      (trm, .error .conflict)
    else
      let counter := trm.counter + 1
      let th := if th.id == "" then { th with id := format3 counter } else th
      SaveLoop { trm with counter := counter, things := mapInsert trm.things th.id th }
        (th :: acc) rest

/-- `thingRepositoryMock.Save`. -/
def Save (trm : thingRepositoryMock) (ths : List Thing) :
    thingRepositoryMock × Except Err (List Thing) :=
  SaveLoop trm [] ths

/-- `thingRepositoryMock.Update`: replace the stored record iff the ID
exists. -/
def Update (trm : thingRepositoryMock) (thing : Thing) :
    thingRepositoryMock × Option Err :=
  match mapLookup trm.things thing.id with
  | none => (trm, some .notFound)
  | some _ => ({ trm with things := mapInsert trm.things thing.id thing }, none)

/-- `thingRepositoryMock.UpdateKey`: scan all stored Things for a key
collision first (Conflict), then NotFound if the ID is absent, else apply
the key change. -/
def UpdateKey (trm : thingRepositoryMock) (id val : String) :
    thingRepositoryMock × Option Err :=
  if trm.things.any (fun p => p.2.key == val) then
    (trm, some .conflict)
  else
    match mapLookup trm.things id with
    | none => (trm, some .notFound)
    | some th => ({ trm with things := mapInsert trm.things id { th with key := val } }, none)

/-- `thingRepositoryMock.RetrieveByID`: linear scan over stored values. -/
def RetrieveByID (trm : thingRepositoryMock) (id : String) : Except Err Thing :=
  match trm.things.find? (fun p => p.2.id == id) with
  | some p => .ok p.2
  | none => .error .notFound

/-- `thingRepositoryMock.RetrieveByKey`: the ID of the first stored Thing
with the given key. -/
def RetrieveByKey (trm : thingRepositoryMock) (key : String) : Except Err String :=
  match trm.things.find? (fun p => p.2.key == key) with
  | some p => .ok p.2.id
  | none => .error .notFound

/-- `thingRepositoryMock.RetrieveByGroupIDs`.  A zero limit yields the
zero-valued page; otherwise the window `[offset+1, offset+1+limit)` is
applied to the numeric ordinal of each candidate's ID, a non-empty name
filter shrinks the candidates, and the result is sorted.  (The Go function
always returns a nil error.) -/
def RetrieveByGroupIDs (trm : thingRepositoryMock) (groupIDs : List String)
    (pm : PageMetadata) : ThingsPage :=
  if pm.limit == 0 then {}
  else
    let first := pm.offset + 1
    let last := first + pm.limit
    let items := groupIDs.flatMap (fun grID =>
      (trm.things.map Prod.snd).filter (fun v =>
        v.groupID == grID && (decide (first ≤ ParseID v.id) && decide (ParseID v.id < last))))
    let items := if pm.name != "" then items.filter (fun v => v.name == pm.name) else items
    let items := sortThings pm items
    { pageMetadata := { total := trm.counter, offset := pm.offset, limit := pm.limit },
      things := items }

/-- The loop body of `Remove`: delete each ID, failing NotFound at the
first absent one (earlier deletions stay applied). -/
def RemoveLoop (trm : thingRepositoryMock) :
    List String → thingRepositoryMock × Option Err
  | [] => (trm, none)
  | id :: rest =>
    match mapLookup trm.things id with
    | none => (trm, some .notFound)
    | some _ => RemoveLoop { trm with things := mapDelete trm.things id } rest

/-- `thingRepositoryMock.Remove`. -/
def Remove (trm : thingRepositoryMock) (ids : List String) :
    thingRepositoryMock × Option Err :=
  RemoveLoop trm ids

/-- `thingRepositoryMock.connect`: the bridge consumer's handling of a
`connected=true` event. -/
def connect (trm : thingRepositoryMock) (conn : Connection) : thingRepositoryMock :=
  let inner := (mapLookup trm.tconns conn.chanID).getD []
  { trm with tconns := mapInsert trm.tconns conn.chanID (mapInsert inner conn.thing.id conn.thing) }

/-- `thingRepositoryMock.disconnect`: the bridge consumer's handling of a
`connected=false` event — a Thing-less event drops the channel's whole
entry, otherwise only the named Thing is dropped. -/
def disconnect (trm : thingRepositoryMock) (conn : Connection) : thingRepositoryMock :=
  if conn.thing.id == "" then
    { trm with tconns := mapDelete trm.tconns conn.chanID }
  else
    { trm with tconns := trm.tconns.map (fun p =>
        if p.1 = conn.chanID then (p.1, mapDelete p.2 conn.thing.id) else p) }

/-- The body of the bridge consumer goroutine started by
`NewThingRepository`: dispatch one event on its `connected` flag. -/
def applyConn (trm : thingRepositoryMock) (conn : Connection) : thingRepositoryMock :=
  if conn.connected then trm.connect conn else trm.disconnect conn

end thingRepositoryMock

/-- `mocks.channelRepositoryMock`: the sequence counter, the Channels
table (`channels`, ID → Channel) and the channel-side connection index
(`cconns`, thing ID → (channel ID → Channel)).  Events pushed onto the
bridge channel `tconns` are returned explicitly as a list, in emission
order. -/
structure channelRepositoryMock where
  counter : Nat := 0
  channels : List (String × Channel) := []
  cconns : List (String × List (String × Channel)) := []
deriving DecidableEq, Repr

namespace channelRepositoryMock

/-- The loop body of `Save` for Channels: no uniqueness check of any kind;
bump the counter, assign a generated ID when none is supplied, and store
(overwriting any record under the same ID). -/
def SaveLoop (crm : channelRepositoryMock) (acc : List Channel) :
    List Channel → channelRepositoryMock × Except Err (List Channel)
  | [] => (crm, .ok acc.reverse)
  | ch :: rest =>
    let counter := crm.counter + 1
    let ch := if ch.id == "" then { ch with id := format3 counter } else ch
    SaveLoop { crm with counter := counter, channels := mapInsert crm.channels ch.id ch }
      (ch :: acc) rest

/-- `channelRepositoryMock.Save`. -/
def Save (crm : channelRepositoryMock) (channels : List Channel) :
    channelRepositoryMock × Except Err (List Channel) :=
  SaveLoop crm [] channels

/-- `channelRepositoryMock.Update`: replace the stored record iff the ID
exists. -/
def Update (crm : channelRepositoryMock) (channel : Channel) :
    channelRepositoryMock × Option Err :=
  match mapLookup crm.channels channel.id with
  | none => (crm, some .notFound)
  | some _ => ({ crm with channels := mapInsert crm.channels channel.id channel }, none)

/-- `channelRepositoryMock.RetrieveByID`: linear scan over stored
values. -/
def RetrieveByID (crm : channelRepositoryMock) (id : String) : Except Err Channel :=
  match crm.channels.find? (fun p => p.2.id == id) with
  | some p => .ok p.2
  | none => .error .notFound

/-- `channelRepositoryMock.RetrieveByGroupIDs`: same pagination logic as
the Thing variant. -/
def RetrieveByGroupIDs (crm : channelRepositoryMock) (groupIDs : List String)
    (pm : PageMetadata) : ChannelsPage :=
  if pm.limit == 0 then {}
  else
    let first := pm.offset + 1
    let last := first + pm.limit
    let items := groupIDs.flatMap (fun grID =>
      (crm.channels.map Prod.snd).filter (fun v =>
        v.groupID == grID && (decide (first ≤ ParseID v.id) && decide (ParseID v.id < last))))
    let items := if pm.name != "" then items.filter (fun v => v.name == pm.name) else items
    let items := sortChannels pm items
    { pageMetadata := { total := crm.counter, offset := pm.offset, limit := pm.limit },
      channels := items }

/-- The loop body of Channel `Remove`: NotFound at the first absent ID;
for each present ID, delete the Channel, strip it from every Thing's entry
in the channel-side index, and emit a Thing-less `connected=false` event
on the bridge.  `evs` accumulates the emitted events in reverse. -/
def RemoveLoop (crm : channelRepositoryMock) (evs : List Connection) :
    List String → channelRepositoryMock × List Connection × Option Err
  | [] => (crm, evs.reverse, none)
  | id :: rest =>
    match mapLookup crm.channels id with
    | none => (crm, evs.reverse, some .notFound)
    | some _ =>
      RemoveLoop
        { crm with channels := mapDelete crm.channels id,
                   cconns := crm.cconns.map (fun p => (p.1, mapDelete p.2 id)) }
        ({ chanID := id, connected := false } :: evs) rest

/-- `channelRepositoryMock.Remove`: returns the new state, the bridge
events emitted, and the error, if any. -/
def Remove (crm : channelRepositoryMock) (ids : List String) :
    channelRepositoryMock × List Connection × Option Err :=
  RemoveLoop crm [] ids

/-- The per-Thing loop body of `Connect`: Conflict as soon as the Thing
already has an entry (of any size) in the channel-side index; propagate
the Thing table's NotFound; otherwise emit a `connected=true` event
carrying the resolved Thing and record the pair. -/
def ConnectLoop (crm : channelRepositoryMock) (tr : thingRepositoryMock)
    (ch : Channel) (chID : String) (evs : List Connection) :
    List String → channelRepositoryMock × List Connection × Option Err
  | [] => (crm, evs.reverse, none)
  | thID :: rest =>
    if (mapLookup crm.cconns thID).isSome then
      (crm, evs.reverse, some .conflict)
    else
      match tr.RetrieveByID thID with
      | .error e => (crm, evs.reverse, some e)
      | .ok th =>
        let inner := (mapLookup crm.cconns thID).getD []
        ConnectLoop
          { crm with cconns := mapInsert crm.cconns thID (mapInsert inner chID ch) }
          tr ch chID ({ chanID := chID, thing := th, connected := true } :: evs) rest

/-- `channelRepositoryMock.Connect`: resolve the Channel first (NotFound
if absent), then process each Thing ID.  The collaborating Thing
repository is read, never written, so it is passed as a parameter. -/
def Connect (crm : channelRepositoryMock) (tr : thingRepositoryMock)
    (chID : String) (thIDs : List String) :
    channelRepositoryMock × List Connection × Option Err :=
  match crm.RetrieveByID chID with
  | .error e => (crm, [], some e)
  | .ok ch => ConnectLoop crm tr ch chID [] thIDs

/-- The per-Thing loop body of `Disconnect`: NotFound if the Thing has no
entry at all or no entry for this Channel; otherwise emit a
`connected=false` event naming the Thing and drop the pair (the Thing's
outer entry itself stays behind, possibly empty). -/
def DisconnectLoop (crm : channelRepositoryMock) (chID : String)
    (evs : List Connection) :
    List String → channelRepositoryMock × List Connection × Option Err
  | [] => (crm, evs.reverse, none)
  | thID :: rest =>
    match mapLookup crm.cconns thID with
    | none => (crm, evs.reverse, some .notFound)
    | some inner =>
      if (mapLookup inner chID).isNone then
        (crm, evs.reverse, some .notFound)
      else
        DisconnectLoop
          { crm with cconns := mapInsert crm.cconns thID (mapDelete inner chID) }
          chID ({ chanID := chID, thing := { id := thID }, connected := false } :: evs) rest

/-- `channelRepositoryMock.Disconnect`. -/
def Disconnect (crm : channelRepositoryMock) (chID : String) (thIDs : List String) :
    channelRepositoryMock × List Connection × Option Err :=
  DisconnectLoop crm chID [] thIDs

end channelRepositoryMock

/-- `mocks.channelCacheMock`: a flat map from channel ID to a single thing
ID. -/
structure channelCacheMock where
  channels : List (String × String) := []
deriving DecidableEq, Repr

namespace channelCacheMock

/-- `channelCacheMock.Connect`: overwrite any prior value for the
channel. -/
def Connect (ccm : channelCacheMock) (chanID thingID : String) : channelCacheMock :=
  { channels := mapInsert ccm.channels chanID thingID }

/-- `channelCacheMock.HasThing`: Go map indexing yields the zero value
`""` for an absent key, compared with the queried thing ID. -/
def HasThing (ccm : channelCacheMock) (chanID thingID : String) : Bool :=
  (mapLookup ccm.channels chanID).getD "" == thingID

/-- `channelCacheMock.Disconnect`: delete the channel's key (the thing ID
argument is ignored). -/
def Disconnect (ccm : channelCacheMock) (chanID thingID : String) : channelCacheMock :=
  { channels := mapDelete ccm.channels chanID }

/-- `channelCacheMock.Remove`: delete the channel's key. -/
def Remove (ccm : channelCacheMock) (chanID : String) : channelCacheMock :=
  { channels := mapDelete ccm.channels chanID }

end channelCacheMock

/-- The states of the Things table reachable from the empty repository by
any sequence of `Save`, `Update`, `UpdateKey` and `Remove` calls. -/
inductive Reachable : thingRepositoryMock → Prop where
  | empty : Reachable {}
  | save {st : thingRepositoryMock} (ths : List Thing) :
      Reachable st → Reachable (st.Save ths).1
  | update {st : thingRepositoryMock} (th : Thing) :
      Reachable st → Reachable (st.Update th).1
  | updateKey {st : thingRepositoryMock} (id k : String) :
      Reachable st → Reachable (st.UpdateKey id k).1
  | remove {st : thingRepositoryMock} (ids : List String) :
      Reachable st → Reachable (st.Remove ids).1

/-- The states reachable when `Update` (which bypasses the key-uniqueness
check) is left out. -/
inductive ReachableNoUpdate : thingRepositoryMock → Prop where
  | empty : ReachableNoUpdate {}
  | save {st : thingRepositoryMock} (ths : List Thing) :
      ReachableNoUpdate st → ReachableNoUpdate (st.Save ths).1
  | updateKey {st : thingRepositoryMock} (id k : String) :
      ReachableNoUpdate st → ReachableNoUpdate (st.UpdateKey id k).1
  | remove {st : thingRepositoryMock} (ids : List String) :
      ReachableNoUpdate st → ReachableNoUpdate (st.Remove ids).1

/-- No two stored Things share an access key. -/
def DistinctKeys (trm : thingRepositoryMock) : Prop :=
  trm.things.Pairwise (fun p q => p.2.key ≠ q.2.key)

/-! ### Association-list lemmas -/

theorem mapLookup_mapInsert {α : Type} (m : List (String × α)) (k k' : String) (v : α) :
    mapLookup (mapInsert m k v) k' = if k = k' then some v else mapLookup m k' := by
  induction m with
  | nil => simp [mapInsert, mapLookup]
  | cons p rest ih =>
      obtain ⟨a, w⟩ := p
      by_cases hak : a = k
      · subst hak
        simp only [mapInsert, if_pos rfl, mapLookup]
        by_cases hk' : a = k'
        · simp [hk']
        · simp [hk']
      · simp only [mapInsert, if_neg hak, mapLookup]
        by_cases hk' : a = k'
        · subst hk'
          have hne : ¬ k = a := fun h => hak h.symm
          simp [hne]
        · simp [hk', ih]

theorem mapLookup_mapDelete_self {α : Type} (m : List (String × α)) (k : String) :
    mapLookup (mapDelete m k) k = none := by
  induction m with
  | nil => rfl
  | cons p rest ih =>
      obtain ⟨a, w⟩ := p
      by_cases hak : a = k
      · simp [mapDelete, hak, ih]
      · simp [mapDelete, hak, mapLookup, ih]

theorem mapLookup_mapDelete_ne {α : Type} (m : List (String × α)) (k k' : String)
    (h : k ≠ k') : mapLookup (mapDelete m k) k' = mapLookup m k' := by
  induction m with
  | nil => rfl
  | cons p rest ih =>
      obtain ⟨a, w⟩ := p
      by_cases hak : a = k
      · subst hak
        have hne : ¬ a = k' := fun hcon => h hcon
        simp [mapDelete, mapLookup, hne, ih]
      · simp [mapDelete, hak, mapLookup, ih]

theorem mem_mapInsert {α : Type} (m : List (String × α)) (k : String) (v : α)
    (p : String × α) : p ∈ mapInsert m k v → p = (k, v) ∨ p ∈ m := by
  induction m with
  | nil =>
      intro hp
      simpa [mapInsert] using hp
  | cons q rest ih =>
      obtain ⟨a, w⟩ := q
      intro hp
      by_cases hak : a = k
      · subst hak
        rw [mapInsert, if_pos rfl] at hp
        rcases List.mem_cons.mp hp with hp | hp
        · exact Or.inl hp
        · exact Or.inr (List.mem_cons_of_mem _ hp)
      · rw [mapInsert, if_neg hak] at hp
        rcases List.mem_cons.mp hp with hp | hp
        · exact Or.inr (by simp [hp])
        · rcases ih hp with hp' | hp'
          · exact Or.inl hp'
          · exact Or.inr (List.mem_cons_of_mem _ hp')

theorem mapDelete_sublist {α : Type} (m : List (String × α)) (k : String) :
    (mapDelete m k).Sublist m := by
  induction m with
  | nil => simp [mapDelete]
  | cons p rest ih =>
      obtain ⟨a, w⟩ := p
      by_cases hak : a = k
      · simpa [mapDelete, hak] using List.Sublist.cons (a, w) ih
      · simpa [mapDelete, hak] using List.Sublist.cons₂ (a, w) ih

/-! ### Claim theorems -/

/-- C1: the claim says that `Save` of a batch `[T1, T2]` with `T1.Key =
T2.Key`, against a table holding no Thing with that key, fails Conflict
and stores neither Thing.  The code does fail Conflict, but it stores `T1`
and bumps the counter before rejecting `T2` — a partial insert,
contradicting the claim and the `ThingRepository.Save` documentation
("Things are saved using a transaction. If one thing fails then none will
be saved"). -/
theorem thingSave_conflict_partial_insert :
    (thingRepositoryMock.Save {} [{ id := "a", key := "k" }, { id := "b", key := "k" }]).2
        = .error .conflict ∧
    (thingRepositoryMock.Save {} [{ id := "a", key := "k" }, { id := "b", key := "k" }]).1.things
        = [("a", { id := "a", key := "k" })] ∧
    (thingRepositoryMock.Save {} [{ id := "a", key := "k" }, { id := "b", key := "k" }]).1.counter
        = 1 :=
  ⟨rfl, rfl, rfl⟩

/-- C5 counterexample: the claim says every successful `RetrieveByGroupIDs`
returns `Total` equal to the table's running counter, including the
`Limit = 0` case.  But the `Limit = 0` case returns the zero-valued page,
whose `Total` is `0`, while the counter of the table below is `1`. -/
theorem retrieveByGroupIDs_total_zero_limit_cex :
    ((thingRepositoryMock.Save {} [{ id := "x", groupID := "g", key := "k" }]).1.RetrieveByGroupIDs
        ["g"] { limit := 0 }).pageMetadata.total = 0 ∧
    (thingRepositoryMock.Save {} [{ id := "x", groupID := "g", key := "k" }]).1.counter = 1 := by
  decide

/-- C5 (amended): for `Limit > 0`, both `RetrieveByGroupIDs` variants
return a page whose `Total` equals the owning table's running counter; for
`Limit = 0` they return the zero-valued empty page (whose `Total` is `0`),
not an error. -/
theorem retrieveByGroupIDs_total_counter (trm : thingRepositoryMock)
    (crm : channelRepositoryMock) (gids : List String) (pm : PageMetadata) :
    (pm.limit ≠ 0 →
      (trm.RetrieveByGroupIDs gids pm).pageMetadata.total = trm.counter ∧
      (crm.RetrieveByGroupIDs gids pm).pageMetadata.total = crm.counter) ∧
    (pm.limit = 0 →
      trm.RetrieveByGroupIDs gids pm = {} ∧ crm.RetrieveByGroupIDs gids pm = {}) := by
  constructor
  · intro h
    constructor
    · simp [thingRepositoryMock.RetrieveByGroupIDs, h]
    · simp [channelRepositoryMock.RetrieveByGroupIDs, h]
  · intro h
    constructor
    · simp [thingRepositoryMock.RetrieveByGroupIDs, h]
    · simp [channelRepositoryMock.RetrieveByGroupIDs, h]

/-- C5 witness: the amended total/zero-limit behaviour at a concrete
table with counter 5. -/
theorem retrieveByGroupIDs_total_counter_witness :
    (({ counter := 5 } : thingRepositoryMock).RetrieveByGroupIDs ["g"]
        { limit := 1 }).pageMetadata.total = 5 ∧
    ({ counter := 5 } : thingRepositoryMock).RetrieveByGroupIDs ["g"] { limit := 0 } = {} :=
  ⟨((retrieveByGroupIDs_total_counter { counter := 5 } {} ["g"] { limit := 1 }).1
      (by decide)).1,
   ((retrieveByGroupIDs_total_counter { counter := 5 } {} ["g"] { limit := 0 }).2 rfl).1⟩

/-- C9: on the channel cache, a second `Connect` for the same channel
overwrites the bound thing — exactly the new thing is associated, so
`HasThing` holds for it and fails for the old one — and `Disconnect`
produces the same state as `Remove`, whatever thing is named. -/
theorem channelCache_overwrite_disconnect_remove (c : channelCacheMock)
    (ch t1 t2 t : String) :
    mapLookup ((c.Connect ch t1).Connect ch t2).channels ch = some t2 ∧
    ((c.Connect ch t1).Connect ch t2).HasThing ch t2 = true ∧
    (t1 ≠ t2 → ((c.Connect ch t1).Connect ch t2).HasThing ch t1 = false) ∧
    c.Disconnect ch t = c.Remove ch := by
  refine ⟨?_, ?_, ?_, rfl⟩
  · simp [channelCacheMock.Connect, mapLookup_mapInsert]
  · simp [channelCacheMock.Connect, channelCacheMock.HasThing, mapLookup_mapInsert]
  · intro hne
    simp [channelCacheMock.Connect, channelCacheMock.HasThing, mapLookup_mapInsert]
    exact fun h => hne h.symm

/-- C9 witness: the overwrite behaviour at concrete thing IDs. -/
theorem channelCache_overwrite_disconnect_remove_witness :
    ((({} : channelCacheMock).Connect "c" "t1").Connect "c" "t2").HasThing "c" "t1" = false :=
  (channelCache_overwrite_disconnect_remove {} "c" "t1" "t2" "x").2.2.1 (by decide)

/-- The Channel `Save` loop never returns an error, whatever the state and
the batch. -/
theorem channelSaveLoop_ok (l : List Channel) :
    ∀ (crm : channelRepositoryMock) (acc : List Channel),
      ∃ out, (channelRepositoryMock.SaveLoop crm acc l).2 = .ok out := by
  induction l with
  | nil => exact fun crm acc => ⟨acc.reverse, rfl⟩
  | cons ch rest ih =>
      intro crm acc
      simp only [channelRepositoryMock.SaveLoop]
      exact ih _ _

/-- C10: Channel `Save` never returns an error, and saving a channel whose
caller-supplied ID is already stored silently overwrites the stored
record. -/
theorem channelSave_never_errs (crm : channelRepositoryMock)
    (chs : List Channel) (ch : Channel) :
    (∃ out, (crm.Save chs).2 = .ok out) ∧
    (ch.id ≠ "" → (crm.Save [ch]).2 = .ok [ch] ∧
      mapLookup (crm.Save [ch]).1.channels ch.id = some ch) := by
  constructor
  · exact channelSaveLoop_ok chs crm []
  · intro h
    have hbe : (ch.id == "") = false := by simpa using h
    constructor
    · simp [channelRepositoryMock.Save, channelRepositoryMock.SaveLoop, hbe]
    · simp [channelRepositoryMock.Save, channelRepositoryMock.SaveLoop, hbe,
        mapLookup_mapInsert]

/-- C10 witness: overwriting save at a concrete state holding a channel
under the same ID. -/
theorem channelSave_never_errs_witness :
    (({ counter := 1, channels := [("c", { id := "c", name := "old" })] } :
        channelRepositoryMock).Save [{ id := "c", name := "new" }]).2
      = .ok [{ id := "c", name := "new" }] ∧
    mapLookup (({ counter := 1, channels := [("c", { id := "c", name := "old" })] } :
        channelRepositoryMock).Save [{ id := "c", name := "new" }]).1.channels "c"
      = some { id := "c", name := "new" } :=
  (channelSave_never_errs { counter := 1, channels := [("c", { id := "c", name := "old" })] }
      [] { id := "c", name := "new" }).2 (by decide)

/-! ### Key uniqueness (C2) -/

/-- Inserting a value whose key collides with no stored value preserves
pairwise key distinctness. -/
theorem pairwise_keys_mapInsert (m : List (String × Thing)) (k : String) (v : Thing)
    (hv : ∀ p ∈ m, p.2.key ≠ v.key)
    (hm : m.Pairwise (fun p q => p.2.key ≠ q.2.key)) :
    (mapInsert m k v).Pairwise (fun p q => p.2.key ≠ q.2.key) := by
  induction m with
  | nil => simp [mapInsert]
  | cons q rest ih =>
      obtain ⟨a, w⟩ := q
      rw [List.pairwise_cons] at hm
      obtain ⟨hw, hrest⟩ := hm
      by_cases hak : a = k
      · rw [mapInsert, if_pos hak]
        refine List.pairwise_cons.mpr ⟨?_, hrest⟩
        intro p hp hcon
        exact hv p (List.mem_cons_of_mem _ hp) hcon.symm
      · rw [mapInsert, if_neg hak]
        refine List.pairwise_cons.mpr ⟨?_, ?_⟩
        · intro p hp
          rcases mem_mapInsert rest k v p hp with h | h
          · intro hcon
            exact hv (a, w) (List.mem_cons_self _ _) (by rw [h] at hcon; exact hcon)
          · exact hw p h
        · exact ih (fun p hp => hv p (List.mem_cons_of_mem _ hp)) hrest

/-- The `Save` loop preserves key distinctness: each candidate is inserted
only after the collision scan over the current table came up empty. -/
theorem saveLoop_distinct_keys (l : List Thing) :
    ∀ (trm : thingRepositoryMock) (acc : List Thing), DistinctKeys trm →
      DistinctKeys (thingRepositoryMock.SaveLoop trm acc l).1 := by
  induction l with
  | nil => exact fun trm acc h => h
  | cons th rest ih =>
      intro trm acc h
      rw [thingRepositoryMock.SaveLoop]
      by_cases hc : trm.things.any (fun p => p.2.key == th.key) = true
      · rw [if_pos hc]
        exact h
      · rw [if_neg hc]
        have hnone : ∀ p ∈ trm.things, p.2.key ≠ th.key := by
          intro p hp
          simp only [List.any_eq_true, beq_iff_eq, not_exists, not_and] at hc
          exact hc p hp
        apply ih
        apply pairwise_keys_mapInsert
        · intro p hp
          have hkey : (if th.id == "" then { th with id := format3 (trm.counter + 1) } else th).key
              = th.key := by
            by_cases hid : th.id == ""
            · simp [hid]
            · simp [hid]
          rw [hkey]
          exact hnone p hp
        · exact h

/-- `UpdateKey` preserves key distinctness: the change is applied only
after the collision scan came up empty. -/
theorem updateKey_distinct_keys (trm : thingRepositoryMock) (id k : String)
    (h : DistinctKeys trm) : DistinctKeys (trm.UpdateKey id k).1 := by
  rw [thingRepositoryMock.UpdateKey]
  by_cases hc : trm.things.any (fun p => p.2.key == k) = true
  · rw [if_pos hc]
    exact h
  · rw [if_neg hc]
    have hnone : ∀ p ∈ trm.things, p.2.key ≠ k := by
      intro p hp
      simp only [List.any_eq_true, beq_iff_eq, not_exists, not_and] at hc
      exact hc p hp
    cases hl : mapLookup trm.things id with
    | none => exact h
    | some th => exact pairwise_keys_mapInsert _ _ _ (fun p hp => hnone p hp) h

/-- Deleting entries preserves key distinctness. -/
theorem mapDelete_pairwise_keys (m : List (String × Thing)) (k : String)
    (hm : m.Pairwise (fun p q => p.2.key ≠ q.2.key)) :
    (mapDelete m k).Pairwise (fun p q => p.2.key ≠ q.2.key) :=
  hm.sublist (mapDelete_sublist m k)

/-- The `Remove` loop preserves key distinctness. -/
theorem removeLoop_distinct_keys (ids : List String) :
    ∀ (trm : thingRepositoryMock), DistinctKeys trm →
      DistinctKeys (thingRepositoryMock.RemoveLoop trm ids).1 := by
  induction ids with
  | nil => exact fun trm h => h
  | cons id rest ih =>
      intro trm h
      rw [thingRepositoryMock.RemoveLoop]
      cases hl : mapLookup trm.things id with
      | none => exact h
      | some th => exact ih _ (mapDelete_pairwise_keys _ _ h)

/-- C2 counterexample: the claim quantifies over states reachable by
`Save`, `Update`, `UpdateKey` and `Remove`; but `Update` replaces a record
with no key-collision scan, so a reachable state can hold two Things with
the same access key. -/
theorem reachable_duplicate_key_via_update :
    Reachable (((thingRepositoryMock.Save {} [{ id := "a", key := "k1" }]).1.Save
        [{ id := "b", key := "k2" }]).1.Update { id := "b", key := "k1" }).1 ∧
    ¬ DistinctKeys (((thingRepositoryMock.Save {} [{ id := "a", key := "k1" }]).1.Save
        [{ id := "b", key := "k2" }]).1.Update { id := "b", key := "k1" }).1 :=
  ⟨Reachable.update _ (Reachable.save _ (Reachable.save _ Reachable.empty)),
   by
    intro hd
    have hx : ((((thingRepositoryMock.Save {} [{ id := "a", key := "k1" }]).1.Save
          [{ id := "b", key := "k2" }]).1.Update { id := "b", key := "k1" }).1).things
        = [("a", { id := "a", key := "k1" }), ("b", { id := "b", key := "k1" })] := rfl
    rw [DistinctKeys, hx] at hd
    have hne := (List.pairwise_cons.mp hd).1 ("b", { id := "b", key := "k1" }) (by simp)
    exact hne rfl⟩

/-- C2 (amended): in every state reachable from the empty table by `Save`,
`UpdateKey` and `Remove` (`Update` excluded: it bypasses the
key-uniqueness scan and can break the invariant), no two stored Things
share an access key. -/
theorem reachableNoUpdate_distinct_keys (st : thingRepositoryMock)
    (h : ReachableNoUpdate st) : DistinctKeys st := by
  induction h with
  | empty => exact List.Pairwise.nil
  | save ths _ ih => exact saveLoop_distinct_keys ths _ [] ih
  | updateKey id k _ ih => exact updateKey_distinct_keys _ id k ih
  | remove ids _ ih => exact removeLoop_distinct_keys ids _ ih

/-- C2 witness: key distinctness of the concrete state reached by saving
two Things with different keys. -/
theorem reachableNoUpdate_distinct_keys_witness :
    DistinctKeys ((thingRepositoryMock.Save {} [{ id := "a", key := "k1" }]).1.Save
        [{ id := "b", key := "k2" }]).1 :=
  reachableNoUpdate_distinct_keys _
    (ReachableNoUpdate.save _ (ReachableNoUpdate.save _ ReachableNoUpdate.empty))

/-! ### UpdateKey and RetrieveByKey (C7) -/

/-- After inserting under `id` a value whose key is `k`, while no stored
value's key was `k`, the key scan finds exactly that binding. -/
theorem find_key_mapInsert (m : List (String × Thing)) (id : String) (v : Thing) (k : String)
    (hm : ∀ p ∈ m, p.2.key ≠ k) (hv : v.key = k) :
    (mapInsert m id v).find? (fun p => p.2.key == k) = some (id, v) := by
  induction m with
  | nil => simp [mapInsert, List.find?, hv]
  | cons q rest ih =>
      obtain ⟨a, w⟩ := q
      by_cases hak : a = id
      · rw [mapInsert, if_pos hak]
        exact List.find?_cons_of_pos _ (by simp [hv])
      · rw [mapInsert, if_neg hak]
        rw [List.find?_cons_of_neg _ (by simp [hm (a, w) (List.mem_cons_self _ _)])]
        exact ih (fun p hp => hm p (List.mem_cons_of_mem _ hp))

/-- C7: `UpdateKey` scans all stored Things first and fails Conflict on
any key equal to the new value; only otherwise does it fail NotFound on an
absent ID; in the remaining case it applies the change, after which
`RetrieveByKey` of the new key returns the updated Thing's ID. -/
theorem updateKey_conflict_precedence (trm : thingRepositoryMock) (id k : String) (th : Thing) :
    ((∃ p ∈ trm.things, p.2.key = k) → trm.UpdateKey id k = (trm, some .conflict)) ∧
    ((∀ p ∈ trm.things, p.2.key ≠ k) → mapLookup trm.things id = none →
        trm.UpdateKey id k = (trm, some .notFound)) ∧
    ((∀ p ∈ trm.things, p.2.key ≠ k) → mapLookup trm.things id = some th → th.id = id →
        (trm.UpdateKey id k).2 = none ∧
        (trm.UpdateKey id k).1.RetrieveByKey k = .ok id) := by
  refine ⟨?_, ?_, ?_⟩
  · rintro ⟨p, hp, hk⟩
    have hc : trm.things.any (fun p => p.2.key == k) = true :=
      List.any_eq_true.mpr ⟨p, hp, by simp [hk]⟩
    rw [thingRepositoryMock.UpdateKey, if_pos hc]
  · intro hall hnone
    have hc : ¬ trm.things.any (fun p => p.2.key == k) = true := by
      simp only [List.any_eq_true, beq_iff_eq, not_exists, not_and]
      exact hall
    rw [thingRepositoryMock.UpdateKey, if_neg hc, hnone]
  · intro hall hsome hid
    have hc : ¬ trm.things.any (fun p => p.2.key == k) = true := by
      simp only [List.any_eq_true, beq_iff_eq, not_exists, not_and]
      exact hall
    constructor
    · simp only [thingRepositoryMock.UpdateKey, if_neg hc, hsome]
    · simp only [thingRepositoryMock.UpdateKey, if_neg hc, hsome,
        thingRepositoryMock.RetrieveByKey]
      rw [find_key_mapInsert trm.things id { th with key := k } k hall rfl]
      simp [hid]

/-- C7 witness: updating a stored Thing's key to a fresh value, then
retrieving by that key, at a concrete one-entry table. -/
theorem updateKey_conflict_precedence_witness :
    (({ counter := 1, things := [("a", { id := "a", key := "k0" })] } :
        thingRepositoryMock).UpdateKey "a" "k9").2 = none ∧
    (({ counter := 1, things := [("a", { id := "a", key := "k0" })] } :
        thingRepositoryMock).UpdateKey "a" "k9").1.RetrieveByKey "k9" = .ok "a" :=
  (updateKey_conflict_precedence { counter := 1, things := [("a", { id := "a", key := "k0" })] }
      "a" "k9" { id := "a", key := "k0" }).2.2 (by decide) rfl rfl

/-! ### Batch Remove (C8) -/

/-- The `Remove` loop never resurrects an absent ID. -/
theorem removeLoop_preserves_none (ids : List String) :
    ∀ (trm : thingRepositoryMock) (k : String), mapLookup trm.things k = none →
      mapLookup (thingRepositoryMock.RemoveLoop trm ids).1.things k = none := by
  induction ids with
  | nil => exact fun trm k h => h
  | cons id rest ih =>
      intro trm k h
      rw [thingRepositoryMock.RemoveLoop]
      cases hl : mapLookup trm.things id with
      | none => exact h
      | some th =>
          apply ih
          by_cases hk : id = k
          · subst hk
            exact mapLookup_mapDelete_self _ _
          · rw [mapLookup_mapDelete_ne _ _ _ hk]
            exact h

/-- A successful `Remove` loop leaves every processed ID absent. -/
theorem removeLoop_removed (ids : List String) :
    ∀ (trm st' : thingRepositoryMock),
      thingRepositoryMock.RemoveLoop trm ids = (st', none) →
      ∀ id ∈ ids, mapLookup st'.things id = none := by
  induction ids with
  | nil =>
      intro trm st' h id hid
      exact absurd hid (List.not_mem_nil id)
  | cons x rest ih =>
      intro trm st' h id hid
      rw [thingRepositoryMock.RemoveLoop] at h
      cases hl : mapLookup trm.things x with
      | none =>
          rw [hl] at h
          exact absurd (congrArg Prod.snd h) (by simp)
      | some th =>
          rw [hl] at h
          have h' : thingRepositoryMock.RemoveLoop
              { trm with things := mapDelete trm.things x } rest = (st', none) := h
          rcases List.mem_cons.mp hid with rfl | hid'
          · have hst : (thingRepositoryMock.RemoveLoop
                { trm with things := mapDelete trm.things id } rest).1 = st' := by rw [h']
            rw [← hst]
            exact removeLoop_preserves_none rest _ id (mapLookup_mapDelete_self _ _)
          · exact ih _ _ h' id hid'

/-- Extending a successfully removed prefix with a missing ID fails the
whole call with NotFound, keeping exactly the prefix's deletions. -/
theorem removeLoop_append_fail (pre : List String) :
    ∀ (trm st' : thingRepositoryMock) (x : String) (rest : List String),
      thingRepositoryMock.RemoveLoop trm pre = (st', none) →
      mapLookup st'.things x = none →
      thingRepositoryMock.RemoveLoop trm (pre ++ x :: rest) = (st', some .notFound) := by
  induction pre with
  | nil =>
      intro trm st' x rest h hx
      have he : trm = st' := congrArg Prod.fst h
      subst he
      rw [List.nil_append, thingRepositoryMock.RemoveLoop, hx]
  | cons y pre ih =>
      intro trm st' x rest h hx
      rw [thingRepositoryMock.RemoveLoop] at h
      cases hl : mapLookup trm.things y with
      | none =>
          rw [hl] at h
          exact absurd (congrArg Prod.snd h) (by simp)
      | some th =>
          rw [hl] at h
          rw [List.cons_append, thingRepositoryMock.RemoveLoop, hl]
          exact ih _ _ _ _ h hx

/-- A batch of distinct, all-present IDs is removed completely, leaving
every other binding untouched. -/
theorem removeLoop_all_present (ids : List String) :
    ∀ (trm : thingRepositoryMock), ids.Nodup →
      (∀ id ∈ ids, (mapLookup trm.things id).isSome) →
      (thingRepositoryMock.RemoveLoop trm ids).2 = none ∧
      (∀ id ∈ ids, mapLookup (thingRepositoryMock.RemoveLoop trm ids).1.things id = none) ∧
      (∀ j, j ∉ ids → mapLookup (thingRepositoryMock.RemoveLoop trm ids).1.things j
          = mapLookup trm.things j) := by
  induction ids with
  | nil =>
      intro trm _ _
      exact ⟨rfl, by simp, fun j _ => rfl⟩
  | cons x rest ih =>
      intro trm hnd hall
      obtain ⟨hx, hrest⟩ := List.nodup_cons.mp hnd
      obtain ⟨v, hv⟩ := Option.isSome_iff_exists.mp (hall x (List.mem_cons_self _ _))
      rw [thingRepositoryMock.RemoveLoop, hv]
      have hall' : ∀ id ∈ rest, (mapLookup (mapDelete trm.things x) id).isSome := by
        intro id hid
        have hne : x ≠ id := fun he => hx (he ▸ hid)
        rw [mapLookup_mapDelete_ne _ _ _ hne]
        exact hall id (List.mem_cons_of_mem _ hid)
      obtain ⟨h1, h2, h3⟩ := ih { trm with things := mapDelete trm.things x } hrest hall'
      refine ⟨h1, ?_, ?_⟩
      · intro id hid
        rcases List.mem_cons.mp hid with rfl | hid'
        · rw [h3 id hx]
          exact mapLookup_mapDelete_self _ _
        · exact h2 id hid'
      · intro j hj
        have hjx : j ≠ x := fun he => hj (he ▸ List.mem_cons_self _ _)
        have hjr : j ∉ rest := fun hm => hj (List.mem_cons_of_mem _ hm)
        rw [h3 j hjr, mapLookup_mapDelete_ne _ _ _ (Ne.symm hjx)]

/-- C8: `Remove` deletes IDs in order and fails the whole call with
NotFound at the first missing ID, leaving every earlier ID of the batch
removed (no rollback); a batch of distinct, all-present IDs is removed
completely and the call succeeds. -/
theorem thingRemove_fail_fast (st st' : thingRepositoryMock)
    (ids pre rest : List String) (x : String) :
    (st.Remove pre = (st', none) → mapLookup st'.things x = none →
        st.Remove (pre ++ x :: rest) = (st', some .notFound) ∧
        ∀ id ∈ pre, mapLookup st'.things id = none) ∧
    (ids.Nodup → (∀ id ∈ ids, (mapLookup st.things id).isSome) →
        (st.Remove ids).2 = none ∧
        (∀ id ∈ ids, mapLookup (st.Remove ids).1.things id = none) ∧
        (∀ j, j ∉ ids → mapLookup (st.Remove ids).1.things j = mapLookup st.things j)) := by
  constructor
  · intro h hx
    exact ⟨removeLoop_append_fail pre st st' x rest h hx,
           removeLoop_removed pre st st' h⟩
  · intro hnd hall
    exact removeLoop_all_present ids st hnd hall

/-- C8 witness: a two-entry table; removing `["a", "c"]` deletes `"a"` then
fails NotFound on `"c"`, while removing `["a", "b"]` succeeds. -/
theorem thingRemove_fail_fast_witness :
    ({ counter := 2, things := [("a", { id := "a", key := "ka" }),
        ("b", { id := "b", key := "kb" })] } : thingRepositoryMock).Remove ["a", "c"]
      = ({ counter := 2, things := [("b", { id := "b", key := "kb" })] }, some .notFound) ∧
    (({ counter := 2, things := [("a", { id := "a", key := "ka" }),
        ("b", { id := "b", key := "kb" })] } : thingRepositoryMock).Remove ["a", "b"]).2
      = none :=
  ⟨((thingRemove_fail_fast
      { counter := 2, things := [("a", { id := "a", key := "ka" }),
          ("b", { id := "b", key := "kb" })] }
      { counter := 2, things := [("b", { id := "b", key := "kb" })] }
      ["a", "b"] ["a"] [] "c").1 rfl rfl).1,
   ((thingRemove_fail_fast
      { counter := 2, things := [("a", { id := "a", key := "ka" }),
          ("b", { id := "b", key := "kb" })] }
      { counter := 2, things := [("b", { id := "b", key := "kb" })] }
      ["a", "b"] ["a"] [] "c").2 (by decide) (by decide)).1⟩

/-! ### Channel removal cascade (C6) -/

/-- C6: a successful `Remove` of a Channel strips its ID from every
Thing's entry in the channel-side connection index and emits exactly one
Thing-less `connected=false` event; consuming that event drops the
channel's whole entry — every pair with that channel ID — from the
thing-side index. -/
theorem channelRemove_purges_connections (crm : channelRepositoryMock)
    (tr : thingRepositoryMock) (id : String)
    (h : (mapLookup crm.channels id).isSome) :
    (crm.Remove [id]).2.2 = none ∧
    (∀ p ∈ (crm.Remove [id]).1.cconns, mapLookup p.2 id = none) ∧
    (crm.Remove [id]).2.1 = [{ chanID := id, connected := false }] ∧
    mapLookup (tr.applyConn { chanID := id, connected := false }).tconns id = none := by
  obtain ⟨v, hv⟩ := Option.isSome_iff_exists.mp h
  refine ⟨?_, ?_, ?_, ?_⟩
  · simp [channelRepositoryMock.Remove, channelRepositoryMock.RemoveLoop, hv]
  · simp only [channelRepositoryMock.Remove, channelRepositoryMock.RemoveLoop, hv]
    intro p hp
    rcases List.mem_map.mp hp with ⟨q, hq, hpq⟩
    rw [← hpq]
    exact mapLookup_mapDelete_self _ _
  · simp [channelRepositoryMock.Remove, channelRepositoryMock.RemoveLoop, hv]
  · simp [thingRepositoryMock.applyConn, thingRepositoryMock.disconnect,
      mapLookup_mapDelete_self]

/-- C6 witness: the cascade at a concrete repository pair where thing `t`
is connected to channel `c` on both sides. -/
theorem channelRemove_purges_connections_witness :
    (∀ p ∈ (({ counter := 1, channels := [("c", { id := "c" })], cconns := [("t", [("c", { id := "c" })])] } : channelRepositoryMock).Remove ["c"]).1.cconns, mapLookup p.2 "c" = none) ∧
    mapLookup (({ tconns := [("c", [("t", { id := "t" })])] } : thingRepositoryMock).applyConn { chanID := "c", connected := false }).tconns "c" = none :=
  ⟨(channelRemove_purges_connections { counter := 1, channels := [("c", { id := "c" })], cconns := [("t", [("c", { id := "c" })])] } { tconns := [("c", [("t", { id := "t" })])] } "c" (by decide)).2.1,
   (channelRemove_purges_connections { counter := 1, channels := [("c", { id := "c" })], cconns := [("t", [("c", { id := "c" })])] } { tconns := [("c", [("t", { id := "t" })])] } "c" (by decide)).2.2.2⟩

/-! ### Connect conflict semantics (C4) -/

/-- Changing only the connection index leaves Channel resolution
untouched. -/
theorem retrieveByID_cconns_irrel (crm : channelRepositoryMock)
    (x : List (String × List (String × Channel))) (id : String) :
    ({ crm with cconns := x } : channelRepositoryMock).RetrieveByID id
      = crm.RetrieveByID id := rfl

/-- C4 counterexample: channel `ch` and thing `001` both exist; `Connect`
succeeds, `Disconnect` succeeds, but the second `Connect` — which the
claim says succeeds — fails Conflict, because `Disconnect` leaves the
thing's now-empty entry in the channel-side index and `Connect` tests
entry presence, not whether any Channel is recorded in it. -/
theorem connect_after_disconnect_conflict_cex :
    (({ counter := 1, channels := [("ch", { id := "ch" })] } : channelRepositoryMock).Connect { counter := 1, things := [("001", { id := "001", key := "tk" })] } "ch" ["001"]).2.2 = none ∧
    ((({ counter := 1, channels := [("ch", { id := "ch" })] } : channelRepositoryMock).Connect { counter := 1, things := [("001", { id := "001", key := "tk" })] } "ch" ["001"]).1.Disconnect "ch" ["001"]).2.2 = none ∧
    (((({ counter := 1, channels := [("ch", { id := "ch" })] } : channelRepositoryMock).Connect { counter := 1, things := [("001", { id := "001", key := "tk" })] } "ch" ["001"]).1.Disconnect "ch" ["001"]).1.Connect { counter := 1, things := [("001", { id := "001", key := "tk" })] } "ch" ["001"]).2.2 = some .conflict := by
  decide

/-- C4 (amended): with the channel and the thing both resolvable,
`Connect(ch, [t])` fails Conflict iff the channel-side index has an entry
(possibly empty) for `t`; and since `Disconnect` empties but does not
delete that entry, Connect–Disconnect–Connect on a thing with no prior
entry ends in Conflict rather than succeeding. -/
theorem connect_conflict_iff_entry (crm : channelRepositoryMock)
    (tr : thingRepositoryMock) (chID thID : String) (ch : Channel) (th : Thing)
    (hch : crm.RetrieveByID chID = .ok ch) (hth : tr.RetrieveByID thID = .ok th) :
    ((crm.Connect tr chID [thID]).2.2 = some .conflict ↔
        (mapLookup crm.cconns thID).isSome = true) ∧
    (mapLookup crm.cconns thID = none →
      ((((crm.Connect tr chID [thID]).1.Disconnect chID [thID]).1).Connect tr chID [thID]).2.2
        = some .conflict) := by
  constructor
  · by_cases hs : (mapLookup crm.cconns thID).isSome = true
    · simp only [channelRepositoryMock.Connect, hch]
      rw [channelRepositoryMock.ConnectLoop, if_pos hs]
      simp [hs]
    · simp only [channelRepositoryMock.Connect, hch]
      rw [channelRepositoryMock.ConnectLoop, if_neg hs]
      simp only [hth]
      rw [channelRepositoryMock.ConnectLoop]
      simp [hs]
  · intro hnone
    have hs : ¬ (mapLookup crm.cconns thID).isSome = true := by simp [hnone]
    have hC1 : (crm.Connect tr chID [thID]).1
        = { crm with cconns := mapInsert crm.cconns thID [(chID, ch)] } := by
      simp only [channelRepositoryMock.Connect, hch]
      rw [channelRepositoryMock.ConnectLoop, if_neg hs]
      simp only [hth]
      rw [channelRepositoryMock.ConnectLoop]
      simp [hnone, mapInsert]
    have hlook : mapLookup (mapInsert crm.cconns thID [(chID, ch)]) thID
        = some [(chID, ch)] := by
      rw [mapLookup_mapInsert]
      simp
    have hD : ((crm.Connect tr chID [thID]).1.Disconnect chID [thID]).1
        = { crm with cconns := mapInsert (mapInsert crm.cconns thID [(chID, ch)]) thID [] } := by
      rw [hC1]
      rw [channelRepositoryMock.Disconnect, channelRepositoryMock.DisconnectLoop]
      simp only [hlook]
      rw [if_neg (by simp [mapLookup])]
      rw [channelRepositoryMock.DisconnectLoop]
      simp [mapDelete]
    rw [hD]
    simp only [channelRepositoryMock.Connect, retrieveByID_cconns_irrel, hch]
    rw [channelRepositoryMock.ConnectLoop,
      if_pos (by rw [mapLookup_mapInsert]; simp)]

/-- C4 witness: the amended Connect–Disconnect–Connect outcome at a
concrete pair of repositories. -/
theorem connect_conflict_iff_entry_witness :
    (((({ counter := 1, channels := [("ch", { id := "ch" })] } : channelRepositoryMock).Connect { counter := 1, things := [("001", { id := "001", key := "tk" })] } "ch" ["001"]).1.Disconnect "ch" ["001"]).1.Connect { counter := 1, things := [("001", { id := "001", key := "tk" })] } "ch" ["001"]).2.2 = some .conflict ∧
    ((({ counter := 1, channels := [("ch", { id := "ch" })] } : channelRepositoryMock).Connect { counter := 1, things := [("001", { id := "001", key := "tk" })] } "ch" ["001"]).2.2 = some .conflict ↔
        (mapLookup ({ counter := 1, channels := [("ch", { id := "ch" })] } : channelRepositoryMock).cconns "001").isSome = true) :=
  ⟨(connect_conflict_iff_entry { counter := 1, channels := [("ch", { id := "ch" })] } { counter := 1, things := [("001", { id := "001", key := "tk" })] } "ch" "001" { id := "ch" } { id := "001", key := "tk" } rfl rfl).2 rfl,
   (connect_conflict_iff_entry { counter := 1, channels := [("ch", { id := "ch" })] } { counter := 1, things := [("001", { id := "001", key := "tk" })] } "ch" "001" { id := "ch" } { id := "001", key := "tk" } rfl rfl).1⟩

/-! ### Pagination window membership (C3) -/

/-- Sorting never changes which Things appear on the page. -/
theorem mem_sortThings (pm : PageMetadata) (l : List Thing) (t : Thing) :
    t ∈ sortThings pm l ↔ t ∈ l := by
  rw [sortThings]
  by_cases ho : (pm.order == "name") = true
  · rw [if_pos ho]
    by_cases hd : (pm.dir == "desc") = true
    · rw [if_pos hd, List.mem_reverse]
      exact List.mem_insertionSort _
    · rw [if_neg hd]
      exact List.mem_insertionSort _
  · rw [if_neg ho]

/-- Sorting never changes which Channels appear on the page. -/
theorem mem_sortChannels (pm : PageMetadata) (l : List Channel) (c : Channel) :
    c ∈ sortChannels pm l ↔ c ∈ l := by
  rw [sortChannels]
  by_cases ho : (pm.order == "name") = true
  · rw [if_pos ho]
    by_cases hd : (pm.dir == "desc") = true
    · rw [if_pos hd, List.mem_reverse]
      exact List.mem_insertionSort _
    · rw [if_neg hd]
      exact List.mem_insertionSort _
  · rw [if_neg ho]

/-- Membership in the group/ordinal-window candidate list for Things. -/
theorem mem_groupWindowThing (vals : List (String × Thing)) (gids : List String)
    (first last : Nat) (t : Thing) :
    (t ∈ gids.flatMap (fun grID => (vals.map Prod.snd).filter
        (fun v => v.groupID == grID &&
          (decide (first ≤ ParseID v.id) && decide (ParseID v.id < last))))) ↔
      (t ∈ vals.map Prod.snd ∧ t.groupID ∈ gids ∧
        first ≤ ParseID t.id ∧ ParseID t.id < last) := by
  simp only [List.mem_flatMap, List.mem_filter, Bool.and_eq_true, beq_iff_eq,
    decide_eq_true_eq]
  constructor
  · rintro ⟨g, hg, ht, hgf, h1, h2⟩
    exact ⟨ht, hgf ▸ hg, h1, h2⟩
  · rintro ⟨ht, hgid, h1, h2⟩
    exact ⟨t.groupID, hgid, ht, rfl, h1, h2⟩

/-- Membership in the group/ordinal-window candidate list for Channels. -/
theorem mem_groupWindowChannel (vals : List (String × Channel)) (gids : List String)
    (first last : Nat) (c : Channel) :
    (c ∈ gids.flatMap (fun grID => (vals.map Prod.snd).filter
        (fun v => v.groupID == grID &&
          (decide (first ≤ ParseID v.id) && decide (ParseID v.id < last))))) ↔
      (c ∈ vals.map Prod.snd ∧ c.groupID ∈ gids ∧
        first ≤ ParseID c.id ∧ ParseID c.id < last) := by
  simp only [List.mem_flatMap, List.mem_filter, Bool.and_eq_true, beq_iff_eq,
    decide_eq_true_eq]
  constructor
  · rintro ⟨g, hg, ht, hgf, h1, h2⟩
    exact ⟨ht, hgf ▸ hg, h1, h2⟩
  · rintro ⟨ht, hgid, h1, h2⟩
    exact ⟨c.groupID, hgid, ht, rfl, h1, h2⟩

/-- Membership through the post-filter by exact name for Things. -/
theorem mem_nameFilterThing (pm : PageMetadata) (items : List Thing) (t : Thing) :
    (t ∈ (if pm.name != "" then items.filter (fun v => v.name == pm.name) else items)) ↔
      (t ∈ items ∧ (pm.name = "" ∨ t.name = pm.name)) := by
  by_cases h : pm.name = ""
  · simp [h]
  · simp [h, List.mem_filter]

/-- Membership through the post-filter by exact name for Channels. -/
theorem mem_nameFilterChannel (pm : PageMetadata) (items : List Channel) (c : Channel) :
    (c ∈ (if pm.name != "" then items.filter (fun v => v.name == pm.name) else items)) ↔
      (c ∈ items ∧ (pm.name = "" ∨ c.name = pm.name)) := by
  by_cases h : pm.name = ""
  · simp [h]
  · simp [h, List.mem_filter]

/-- C3 counterexample: with offset 0 and limit 1 the claim's half-open
window `[1, 1)` is empty, yet the page contains the entity with ordinal
`1 = offset + limit`; and with a name filter set, an in-group, in-window
entity whose name differs is excluded, although the claim includes every
in-group in-window entity. -/
theorem retrieveByGroupIDs_window_cex :
    (({ counter := 1, things := [("001", { id := "001", groupID := "g", key := "k" })] } : thingRepositoryMock).RetrieveByGroupIDs ["g"] { offset := 0, limit := 1 }).things = [{ id := "001", groupID := "g", key := "k" }] ∧
    ParseID "001" = 0 + 1 ∧
    (({ counter := 1, things := [("001", { id := "001", groupID := "g", name := "x", key := "k" })] } : thingRepositoryMock).RetrieveByGroupIDs ["g"] { offset := 0, limit := 2, name := "y" }).things = [] := by
  decide

/-- C3 (amended): for `Limit > 0`, `RetrieveByGroupIDs` (Things and
Channels alike) includes exactly the stored entities of the requested
groups whose numeric ID ordinal lies in the closed interval
`[offset+1, offset+limit]` — the ordinal `offset+limit` is included — and
whose name matches the name filter when one is set. -/
theorem retrieveByGroupIDs_window_mem (trm : thingRepositoryMock)
    (crm : channelRepositoryMock) (groupIDs : List String) (pm : PageMetadata)
    (t : Thing) (c : Channel) (hl : pm.limit ≠ 0) :
    (t ∈ (trm.RetrieveByGroupIDs groupIDs pm).things ↔
      (t ∈ trm.things.map Prod.snd ∧ t.groupID ∈ groupIDs ∧
        pm.offset + 1 ≤ ParseID t.id ∧ ParseID t.id ≤ pm.offset + pm.limit ∧
        (pm.name = "" ∨ t.name = pm.name))) ∧
    (c ∈ (crm.RetrieveByGroupIDs groupIDs pm).channels ↔
      (c ∈ crm.channels.map Prod.snd ∧ c.groupID ∈ groupIDs ∧
        pm.offset + 1 ≤ ParseID c.id ∧ ParseID c.id ≤ pm.offset + pm.limit ∧
        (pm.name = "" ∨ c.name = pm.name))) := by
  have hbe : ¬ (pm.limit == 0) = true := by simp [hl]
  constructor
  · rw [thingRepositoryMock.RetrieveByGroupIDs, if_neg hbe]
    rw [mem_sortThings, mem_nameFilterThing, mem_groupWindowThing]
    constructor
    · rintro ⟨⟨ht, hg, h1, h2⟩, hn⟩
      exact ⟨ht, hg, h1, by omega, hn⟩
    · rintro ⟨ht, hg, h1, h2, hn⟩
      exact ⟨⟨ht, hg, h1, by omega⟩, hn⟩
  · rw [channelRepositoryMock.RetrieveByGroupIDs, if_neg hbe]
    rw [mem_sortChannels, mem_nameFilterChannel, mem_groupWindowChannel]
    constructor
    · rintro ⟨⟨ht, hg, h1, h2⟩, hn⟩
      exact ⟨ht, hg, h1, by omega, hn⟩
    · rintro ⟨ht, hg, h1, h2, hn⟩
      exact ⟨⟨ht, hg, h1, by omega⟩, hn⟩

/-- C3 witness: the amended window at a concrete table — the thing with
ordinal `1 = offset + limit` is on the page. -/
theorem retrieveByGroupIDs_window_mem_witness :
    { id := "001", groupID := "g", key := "k" } ∈
      (({ counter := 1, things := [("001", { id := "001", groupID := "g", key := "k" })] } : thingRepositoryMock).RetrieveByGroupIDs ["g"] { offset := 0, limit := 1 }).things :=
  (retrieveByGroupIDs_window_mem { counter := 1, things := [("001", { id := "001", groupID := "g", key := "k" })] } {} ["g"] { offset := 0, limit := 1 } { id := "001", groupID := "g", key := "k" } {} (by decide)).1.mpr (by decide)
